import Mathlib

/-!
Shallow embedding of the Iris ML inference service (`service/app/main.py`).

The service keeps two module-level globals, `model` and `metadata`, filled in
by `load_model` at startup.  The HTTP handlers `predict`, `predict_batch`,
`health_check` and `get_model_info` read that state.  The model artifact is
opaque: it offers `predict(batch) -> class indices` and
`predict_proba(batch) -> probability matrix`; here it is embedded as a pair of
Lean functions (so the artifact is deterministic by construction, matching the
spec's treatment of it as a pure capability interface).  Python floats are
embedded as rationals: the code performs no arithmetic on them, it only moves
them around, so no rounding behaviour is relevant to any property below.
-/

/-- The four validated Iris features (pydantic model `IrisFeatures`);
each field has already passed the `ge=0` constraint. -/
structure IrisFeatures where
  sepal_length : ℚ
  sepal_width : ℚ
  petal_length : ℚ
  petal_width : ℚ
deriving DecidableEq

/-- A raw request body before pydantic validation: each of the four fields
may be missing. -/
structure RawFeatures where
  sepal_length : Option ℚ
  sepal_width : Option ℚ
  petal_length : Option ℚ
  petal_width : Option ℚ
deriving DecidableEq

/-- The model metadata JSON dict.  Each field is `none` when the key is
absent from the dict (`metadata.get(key)` then returns `None`). -/
structure Metadata where
  model_type : Option String
  feature_names : Option (List String)
  target_names : Option (List String)
  n_estimators : Option Nat
  max_depth : Option Nat
deriving DecidableEq

/-- The opaque model artifact: `predict` maps a batch (list of feature rows)
to class indices, `predictProba` maps it to a probability matrix. -/
structure Artifact where
  predict : List (List ℚ) → List Nat
  predictProba : List (List ℚ) → List (List ℚ)

/-- The module-level mutable state of `main.py`: globals `model` and
`metadata`, both initially `None`. -/
structure ServiceState where
  model : Option Artifact
  metadata : Option Metadata

/-- The errors the handlers can surface: 422 pydantic validation errors,
the 503 "Model not loaded", the 503 "Model metadata not available",
and 500 internal errors with a detail string. -/
inductive ApiError where
  | validation (detail : String)
  | modelNotLoaded
  | metadataUnavailable
  | internal (detail : String)
deriving DecidableEq

/-- Response body of `/predict`. -/
structure PredictionResponse where
  prediction : String
  probability : ℚ
  features : IrisFeatures
deriving DecidableEq

/-- One element of the `/predict_batch` response's `predictions` list. -/
structure BatchItem where
  sample_id : Nat
  prediction : String
  probability : ℚ
  features : IrisFeatures
deriving DecidableEq

/-- The `model_info` summary embedded in the health response. -/
structure HealthModelInfo where
  model_type : Option String
  feature_names : Option (List String)
  target_names : Option (List String)
deriving DecidableEq

/-- Response body of `/health`. -/
structure HealthResponse where
  status : String
  model_loaded : Bool
  model_info : Option HealthModelInfo
deriving DecidableEq

/-- The nested `model_parameters` object of `/model_info`. -/
structure ModelParameters where
  n_estimators : Option Nat
  max_depth : Option Nat
deriving DecidableEq

/-- Response body of `/model_info`. -/
structure ModelInfoResponse where
  model_type : Option String
  feature_names : Option (List String)
  target_names : Option (List String)
  model_parameters : ModelParameters
deriving DecidableEq

/-- Outcome of reading one file in `load_model`: the file may be absent,
read successfully, or raise while being read/parsed. -/
inductive FileRead (α : Type) where
  | absent
  | ok (a : α)
  | corrupt

/-- The filesystem as seen by one call to `load_model`: the model artifact
file `models/iris_model.joblib` and the metadata file
`models/model_metadata.json`. -/
structure FS where
  modelFile : FileRead Artifact
  metadataFile : FileRead Metadata

/-- `load_model` (main.py lines 61-88).  Returns the boolean result together
with the updated global state.  Faithful to the source's control flow:
* artifact file absent → log and `return False`, state untouched;
* `joblib.load` raises → caught, `return False`, state untouched
  (the global `model` is only assigned after a successful load);
* artifact loaded, metadata file absent → `return True`; the global
  `metadata` keeps its previous value;
* artifact loaded, metadata parsed → both globals updated, `return True`;
* artifact loaded but `json.load` raises → caught, `return False`, BUT the
  global `model` has already been reassigned. -/
def load_model (fs : FS) (s : ServiceState) : Bool × ServiceState :=
  match fs.modelFile with
  | .absent => (false, s)
  | .corrupt => (false, s)
  | .ok m =>
    match fs.metadataFile with
    | .absent => (true, { s with model := some m })
    | .ok md => (true, { model := some m, metadata := some md })
    | .corrupt => (false, { s with model := some m })

/-- States reachable from the initial module state (`model = None`,
`metadata = None`) by calls to `load_model`; the request handlers never
write the globals. -/
inductive Reachable : ServiceState → Prop where
  | init : Reachable ⟨none, none⟩
  | step (fs : FS) {s : ServiceState} : Reachable s → Reachable (load_model fs s).2

/-- The single-row feature vector built by `predict`/`predict_batch`
(the list `[sepal_length, sepal_width, petal_length, petal_width]`). -/
def featureRow (f : IrisFeatures) : List ℚ :=
  [f.sepal_length, f.sepal_width, f.petal_length, f.petal_width]

/-- Label resolution (main.py lines 144-147 and 198-201):
`metadata["target_names"][prediction]` when the metadata dict is present and
has a `target_names` key — `none` here means that list indexing raised
`IndexError`; otherwise the synthetic `f"class_{prediction}"`. -/
def resolveLabel (metadata : Option Metadata) (pred : Nat) : Option String :=
  match metadata with
  | some md =>
    match md.target_names with
    | some names => names[pred]?
    | none => some ("class_" ++ toString pred)
  | none => some ("class_" ++ toString pred)

/-- `/predict` handler body (main.py lines 122-170), after pydantic
validation.  Every exception inside the `try` is caught and surfaced as a
500 `Prediction failed: ...` error. -/
def predict (s : ServiceState) (features : IrisFeatures) :
    Except ApiError PredictionResponse :=
  match s.model with
  | none => .error .modelNotLoaded
  | some m =>
    match (m.predict [featureRow features])[0]? with
    | none => .error (.internal "Prediction failed: index out of bounds")
    | some prediction =>
      match (m.predictProba [featureRow features])[0]? with
      | none => .error (.internal "Prediction failed: index out of bounds")
      | some probabilities =>
        match resolveLabel s.metadata prediction with
        | none => .error (.internal "Prediction failed: list index out of range")
        | some predicted_class =>
          match probabilities[prediction]? with
          | none => .error (.internal "Prediction failed: list index out of range")
          | some probability =>
            .ok { prediction := predicted_class
                , probability := probability
                , features := features }

/-- The result-formatting loop of `predict_batch` (main.py lines 196-213):
`for i, (pred, prob) in enumerate(zip(predictions, probabilities))`, carrying
the running index `i`.  Each iteration resolves the label, reads
`prob[pred]`, reads `features_list[i]`, and appends the item; any raised
`IndexError` aborts the whole loop and becomes a 500. -/
def buildBatch (metadata : Option Metadata) (features_list : List IrisFeatures) :
    Nat → List (Nat × List ℚ) → Except ApiError (List BatchItem)
  | _, [] => .ok []
  | i, (pred, prob) :: rest =>
    match resolveLabel metadata pred with
    | none => .error (.internal "Batch prediction failed: list index out of range")
    | some predicted_class =>
      match prob[pred]? with
      | none => .error (.internal "Batch prediction failed: list index out of range")
      | some probability =>
        match features_list[i]? with
        | none => .error (.internal "Batch prediction failed: list index out of range")
        | some f =>
          match buildBatch metadata features_list (i + 1) rest with
          | .error e => .error e
          | .ok items =>
            .ok ({ sample_id := i
                 , prediction := predicted_class
                 , probability := probability
                 , features := f } :: items)

/-- `/predict_batch` handler body (main.py lines 172-221), after pydantic
validation: one vectorized `model.predict` / `model.predict_proba` call on
the whole input matrix, then the formatting loop. -/
def predict_batch (s : ServiceState) (features_list : List IrisFeatures) :
    Except ApiError (List BatchItem) :=
  match s.model with
  | none => .error .modelNotLoaded
  | some m =>
    buildBatch s.metadata features_list 0
      ((m.predict (features_list.map featureRow)).zip
        (m.predictProba (features_list.map featureRow)))

/-- `/health` handler (main.py lines 105-120). -/
def health_check (s : ServiceState) : HealthResponse :=
  { status := if s.model.isSome then "healthy" else "unhealthy"
  , model_loaded := s.model.isSome
  , model_info := s.metadata.map fun md =>
      { model_type := md.model_type
      , feature_names := md.feature_names
      , target_names := md.target_names } }

/-- `/model_info` handler (main.py lines 223-237): 503 when the `metadata`
global is `None`, otherwise `metadata.get(...)` for each key (absent key →
`null` in the response). -/
def get_model_info (s : ServiceState) : Except ApiError ModelInfoResponse :=
  match s.metadata with
  | none => .error .metadataUnavailable
  | some md =>
    .ok { model_type := md.model_type
        , feature_names := md.feature_names
        , target_names := md.target_names
        , model_parameters :=
            { n_estimators := md.n_estimators
            , max_depth := md.max_depth } }

/-- Pydantic validation of one field declared `float = Field(..., ge=0)`:
a missing field or a value below 0 is a 422 validation error. -/
def validateField (name : String) (v : Option ℚ) : Except ApiError ℚ :=
  match v with
  | none => .error (.validation (name ++ ": field required"))
  | some x =>
    if x < 0 then
      .error (.validation (name ++ ": ensure this value is greater than or equal to 0"))
    else
      .ok x

/-- Pydantic validation of a whole `IrisFeatures` body: each of the four
declared fields is checked. -/
def validateFeatures (r : RawFeatures) : Except ApiError IrisFeatures :=
  match validateField "sepal_length" r.sepal_length with
  | .error e => .error e
  | .ok sl =>
    match validateField "sepal_width" r.sepal_width with
    | .error e => .error e
    | .ok sw =>
      match validateField "petal_length" r.petal_length with
      | .error e => .error e
      | .ok pl =>
        match validateField "petal_width" r.petal_width with
        | .error e => .error e
        | .ok pw =>
          .ok { sepal_length := sl, sepal_width := sw
              , petal_length := pl, petal_width := pw }

/-- FastAPI validation of a `List[IrisFeatures]` body: all-or-nothing — any
invalid element fails the whole request with a 422 before the handler runs. -/
def validateBatch : List RawFeatures → Except ApiError (List IrisFeatures)
  | [] => .ok []
  | r :: rest =>
    match validateFeatures r with
    | .error e => .error e
    | .ok f =>
      match validateBatch rest with
      | .error e => .error e
      | .ok fs => .ok (f :: fs)

/-- The full `/predict` endpoint: request-body validation happens before the
handler body (and hence before the model-loaded check or any inference). -/
def predictEndpoint (s : ServiceState) (raw : RawFeatures) :
    Except ApiError PredictionResponse :=
  match validateFeatures raw with
  | .error e => .error e
  | .ok f => predict s f

/-- The full `/predict_batch` endpoint: the whole body is validated up front,
then the handler runs. -/
def predictBatchEndpoint (s : ServiceState) (raws : List RawFeatures) :
    Except ApiError (List BatchItem) :=
  match validateBatch raws with
  | .error e => .error e
  | .ok fs => predict_batch s fs

/-- A raw field is invalid when it is missing or negative. -/
def badField : Option ℚ → Prop
  | none => True
  | some x => x < 0

/-- A raw request is invalid when at least one of its four fields is. -/
def invalidRaw (r : RawFeatures) : Prop :=
  badField r.sepal_length ∨ badField r.sepal_width ∨
    badField r.petal_length ∨ badField r.petal_width

/-- Whether a handler outcome is a 422 validation error. -/
def isValidationError {α : Type} : Except ApiError α → Bool
  | .error (.validation _) => true
  | _ => false

/-! ## Concrete fixtures used by witnesses and counterexamples -/

/-- The initial module state of `main.py`: both globals are `None`. -/
def initState : ServiceState := { model := none, metadata := none }

/-- A well-behaved artifact: class 0 for every row, one-hot probability row. -/
def goodArtifact : Artifact :=
  { predict := fun X => X.map fun _ => 0
  , predictProba := fun X => X.map fun _ => [1] }

/-- An artifact that labels every row as class 1 with probability row `[0, 1]`. -/
def class1Artifact : Artifact :=
  { predict := fun X => X.map fun _ => 1
  , predictProba := fun X => X.map fun _ => [0, 1] }

/-- Full metadata as produced by the trainer. -/
def fullMetadata : Metadata :=
  { model_type := some "RandomForestClassifier"
  , feature_names := some ["sepal length (cm)", "sepal width (cm)",
      "petal length (cm)", "petal width (cm)"]
  , target_names := some ["setosa", "versicolor", "virginica"]
  , n_estimators := some 100
  , max_depth := some 3 }

/-- A metadata dict whose `target_names` list is too short for class 1. -/
def shortMetadata : Metadata :=
  { model_type := none, feature_names := none
  , target_names := some ["setosa"], n_estimators := none, max_depth := none }

/-- A metadata dict with none of the expected keys. -/
def emptyMetadata : Metadata :=
  { model_type := none, feature_names := none
  , target_names := none, n_estimators := none, max_depth := none }

/-- A healthy loaded state. -/
def goodState : ServiceState :=
  { model := some goodArtifact, metadata := some fullMetadata }

/-- A loaded state whose `target_names` cannot cover the artifact's output. -/
def shortMetaState : ServiceState :=
  { model := some class1Artifact, metadata := some shortMetadata }

/-- A loaded state whose metadata dict lacks every expected key. -/
def emptyMetaState : ServiceState :=
  { model := some goodArtifact, metadata := some emptyMetadata }

/-- The spec's concrete scenario input `(5.1, 3.5, 1.4, 0.2)`. -/
def testFeatures : IrisFeatures :=
  { sepal_length := 51/10, sepal_width := 35/10
  , petal_length := 14/10, petal_width := 2/10 }

/-- A second distinct input. -/
def testFeatures2 : IrisFeatures :=
  { sepal_length := 6, sepal_width := 3, petal_length := 5, petal_width := 2 }

/-- A valid raw request body. -/
def validRaw : RawFeatures :=
  { sepal_length := some (51/10), sepal_width := some (35/10)
  , petal_length := some (14/10), petal_width := some (2/10) }

/-- A raw request body with a negative `sepal_length`. -/
def negativeRaw : RawFeatures :=
  { sepal_length := some (-1), sepal_width := some (35/10)
  , petal_length := some (14/10), petal_width := some (2/10) }

/-- A filesystem with a readable artifact and an unreadable metadata file. -/
def corruptMetaFS : FS :=
  { modelFile := .ok goodArtifact, metadataFile := .corrupt }

/-- A filesystem with no artifact file at all. -/
def absentFS : FS := { modelFile := .absent, metadataFile := .absent }

/-! ## Helper lemmas -/

/-- Inversion for a successful `predict`: it exposes the class index taken
from `model.predict(X)[0]`, the probability row from
`model.predict_proba(X)[0]`, the resolved label and the selected
probability, and shows the features are echoed unchanged. -/
theorem predict_ok_elim (s : ServiceState) (m : Artifact) (f : IrisFeatures)
    (r : PredictionResponse) (hm : s.model = some m)
    (h : predict s f = .ok r) :
    ∃ pred probs,
      (m.predict [featureRow f])[0]? = some pred ∧
      (m.predictProba [featureRow f])[0]? = some probs ∧
      resolveLabel s.metadata pred = some r.prediction ∧
      probs[pred]? = some r.probability ∧
      r.features = f := by
  simp only [predict, hm] at h
  cases hp : (m.predict [featureRow f])[0]? with
  | none => simp only [hp] at h; exact Except.noConfusion h
  | some pred =>
    simp only [hp] at h
    cases hq : (m.predictProba [featureRow f])[0]? with
    | none => simp only [hq] at h; exact Except.noConfusion h
    | some probs =>
      simp only [hq] at h
      cases hl : resolveLabel s.metadata pred with
      | none => simp only [hl] at h; exact Except.noConfusion h
      | some label =>
        simp only [hl] at h
        cases hpp : probs[pred]? with
        | none => simp only [hpp] at h; exact Except.noConfusion h
        | some p =>
          simp only [hpp] at h
          injection h with h
          subst h
          exact ⟨pred, probs, rfl, rfl, hl, hpp, rfl⟩

/-- Inversion for a successful run of the batch formatting loop: the output
has one item per `(pred, prob)` pair, and the `j`-th item carries
`sample_id = k + j`, the label resolved from the `j`-th class index, the
probability `prob[pred]`, and the features at position `k + j` of the
request list. -/
theorem buildBatch_ok_elim (md : Option Metadata) (fl : List IrisFeatures) :
    ∀ (zs : List (Nat × List ℚ)) (k : Nat) (items : List BatchItem),
      buildBatch md fl k zs = .ok items →
      items.length = zs.length ∧
      ∀ (j : Nat) (it : BatchItem), items[j]? = some it →
        ∃ pr : Nat × List ℚ, zs[j]? = some pr ∧
          it.sample_id = k + j ∧
          resolveLabel md pr.1 = some it.prediction ∧
          pr.2[pr.1]? = some it.probability ∧
          fl[k + j]? = some it.features := by
  intro zs
  induction zs with
  | nil =>
    intro k items h
    simp only [buildBatch] at h
    injection h with h
    subst h
    refine ⟨rfl, ?_⟩
    intro j it hj
    simp at hj
  | cons hd tl ih =>
    intro k items h
    obtain ⟨pred, prob⟩ := hd
    simp only [buildBatch] at h
    cases hl : resolveLabel md pred with
    | none => simp only [hl] at h; exact Except.noConfusion h
    | some label =>
      simp only [hl] at h
      cases hp : prob[pred]? with
      | none => simp only [hp] at h; exact Except.noConfusion h
      | some p =>
        simp only [hp] at h
        cases hf : fl[k]? with
        | none => simp only [hf] at h; exact Except.noConfusion h
        | some f =>
          simp only [hf] at h
          cases hrec : buildBatch md fl (k + 1) tl with
          | error e => simp only [hrec] at h; exact Except.noConfusion h
          | ok rest =>
            simp only [hrec] at h
            injection h with h
            subst h
            obtain ⟨hlen, hget⟩ := ih (k + 1) rest hrec
            refine ⟨by simp [hlen], ?_⟩
            intro j it hj
            cases j with
            | zero =>
              simp only [List.getElem?_cons_zero] at hj
              injection hj with hj
              subst hj
              exact ⟨(pred, prob), by simp, by simp, hl, hp, by simpa using hf⟩
            | succ j' =>
              simp only [List.getElem?_cons_succ] at hj
              obtain ⟨pr, h1, h2, h3, h4, h5⟩ := hget j' it hj
              refine ⟨pr, by simpa using h1, ?_, h3, h4, ?_⟩
              · rw [h2]; omega
              · have : k + (j' + 1) = k + 1 + j' := by omega
                rw [this]; exact h5

/-- Every error `validateField` produces is a 422 validation error. -/
theorem validateField_error_shape (name : String) (v : Option ℚ) (e : ApiError)
    (h : validateField name v = .error e) : ∃ d, e = ApiError.validation d := by
  cases v with
  | none =>
    simp only [validateField] at h
    injection h with h
    exact ⟨name ++ ": field required", h.symm⟩
  | some x =>
    simp only [validateField] at h
    split at h
    · injection h with h
      exact ⟨name ++ ": ensure this value is greater than or equal to 0", h.symm⟩
    · exact Except.noConfusion h

/-- A missing or negative field never validates. -/
theorem validateField_invalid (name : String) (v : Option ℚ) (hv : badField v) :
    ∃ d, validateField name v = .error (.validation d) := by
  cases v with
  | none => exact ⟨name ++ ": field required", rfl⟩
  | some x =>
    have hx : x < 0 := hv
    exact ⟨name ++ ": ensure this value is greater than or equal to 0",
      by simp [validateField, hx]⟩

/-- A field that validates was present and non-negative. -/
theorem validateField_ok_not_bad (name : String) (v : Option ℚ) (x : ℚ)
    (h : validateField name v = .ok x) : ¬ badField v := by
  cases v with
  | none => simp [validateField] at h
  | some y =>
    intro hb
    have hy : y < 0 := hb
    simp [validateField, hy] at h

/-- Every error `validateFeatures` produces is a 422 validation error. -/
theorem validateFeatures_error_shape (r : RawFeatures) (e : ApiError)
    (h : validateFeatures r = .error e) : ∃ d, e = ApiError.validation d := by
  unfold validateFeatures at h
  cases h1 : validateField "sepal_length" r.sepal_length with
  | error e1 =>
    obtain ⟨d, rfl⟩ := validateField_error_shape _ _ _ h1
    simp only [h1] at h
    injection h with h
    exact ⟨d, h.symm⟩
  | ok sl =>
    simp only [h1] at h
    cases h2 : validateField "sepal_width" r.sepal_width with
    | error e2 =>
      obtain ⟨d, rfl⟩ := validateField_error_shape _ _ _ h2
      simp only [h2] at h
      injection h with h
      exact ⟨d, h.symm⟩
    | ok sw =>
      simp only [h2] at h
      cases h3 : validateField "petal_length" r.petal_length with
      | error e3 =>
        obtain ⟨d, rfl⟩ := validateField_error_shape _ _ _ h3
        simp only [h3] at h
        injection h with h
        exact ⟨d, h.symm⟩
      | ok pl =>
        simp only [h3] at h
        cases h4 : validateField "petal_width" r.petal_width with
        | error e4 =>
          obtain ⟨d, rfl⟩ := validateField_error_shape _ _ _ h4
          simp only [h4] at h
          injection h with h
          exact ⟨d, h.symm⟩
        | ok pw =>
          simp only [h4] at h
          exact Except.noConfusion h

/-- An invalid raw body always fails validation, with a 422 error. -/
theorem validateFeatures_invalid (r : RawFeatures) (hr : invalidRaw r) :
    ∃ d, validateFeatures r = .error (.validation d) := by
  cases h1 : validateField "sepal_length" r.sepal_length with
  | error e1 =>
    obtain ⟨d, rfl⟩ := validateField_error_shape _ _ _ h1
    exact ⟨d, by simp only [validateFeatures, h1]⟩
  | ok sl =>
    cases h2 : validateField "sepal_width" r.sepal_width with
    | error e2 =>
      obtain ⟨d, rfl⟩ := validateField_error_shape _ _ _ h2
      exact ⟨d, by simp only [validateFeatures, h1, h2]⟩
    | ok sw =>
      cases h3 : validateField "petal_length" r.petal_length with
      | error e3 =>
        obtain ⟨d, rfl⟩ := validateField_error_shape _ _ _ h3
        exact ⟨d, by simp only [validateFeatures, h1, h2, h3]⟩
      | ok pl =>
        cases h4 : validateField "petal_width" r.petal_width with
        | error e4 =>
          obtain ⟨d, rfl⟩ := validateField_error_shape _ _ _ h4
          exact ⟨d, by simp only [validateFeatures, h1, h2, h3, h4]⟩
        | ok pw =>
          exfalso
          rcases hr with hb | hb | hb | hb
          · exact validateField_ok_not_bad _ _ _ h1 hb
          · exact validateField_ok_not_bad _ _ _ h2 hb
          · exact validateField_ok_not_bad _ _ _ h3 hb
          · exact validateField_ok_not_bad _ _ _ h4 hb

/-- A batch body containing an invalid element always fails validation as a
whole, with a 422 error (all-or-nothing). -/
theorem validateBatch_invalid (raws : List RawFeatures) :
    ∀ (i : Nat) (r : RawFeatures), raws[i]? = some r → invalidRaw r →
      ∃ d, validateBatch raws = .error (.validation d) := by
  induction raws with
  | nil => intro i r h _; simp at h
  | cons hd tl ih =>
    intro i r h hinv
    cases i with
    | zero =>
      simp only [List.getElem?_cons_zero] at h
      injection h with h
      subst h
      obtain ⟨d, hderr⟩ := validateFeatures_invalid hd hinv
      exact ⟨d, by simp only [validateBatch, hderr]⟩
    | succ j =>
      simp only [List.getElem?_cons_succ] at h
      cases hv : validateFeatures hd with
      | error e =>
        obtain ⟨d, rfl⟩ := validateFeatures_error_shape _ _ hv
        exact ⟨d, by simp only [validateBatch, hv]⟩
      | ok f =>
        obtain ⟨d, hrec⟩ := ih j r h hinv
        exact ⟨d, by simp only [validateBatch, hv, hrec]⟩

/-- In any reachable state, the `metadata` global is only ever set by a call
that also set the `model` global: no artifact means no metadata. -/
theorem reachable_no_model_no_metadata :
    ∀ {s : ServiceState}, Reachable s → s.model = none → s.metadata = none := by
  intro s h
  induction h with
  | init => intro _; rfl
  | step fs hr ih =>
    intro hm
    rename_i t
    cases hfs : fs.modelFile with
    | absent =>
      simp only [load_model, hfs] at hm ⊢
      exact ih hm
    | corrupt =>
      simp only [load_model, hfs] at hm ⊢
      exact ih hm
    | ok m =>
      exfalso
      cases hmd : fs.metadataFile <;> simp [load_model, hfs, hmd] at hm

/-- If some class index seen by the batch formatting loop is out of range
for the metadata's `target_names` list, the whole loop aborts with the
batch 500 error (every abort site produces this same error value). -/
theorem buildBatch_label_oob (md : Metadata) (names : List String)
    (hnames : md.target_names = some names) (fl : List IrisFeatures) :
    ∀ (zs : List (Nat × List ℚ)) (k j : Nat) (pr : Nat × List ℚ),
      zs[j]? = some pr → names.length ≤ pr.1 →
      buildBatch (some md) fl k zs =
        .error (.internal "Batch prediction failed: list index out of range") := by
  intro zs
  induction zs with
  | nil => intro k j pr h _; simp at h
  | cons hd tl ih =>
    intro k j pr h hle
    obtain ⟨pred, prob⟩ := hd
    cases j with
    | zero =>
      simp only [List.getElem?_cons_zero] at h
      injection h with h
      subst h
      have hres : resolveLabel (some md) pred = none := by
        have : names[pred]? = none := by
          rw [List.getElem?_eq_none_iff]
          exact hle
        simp [resolveLabel, hnames, this]
      simp only [buildBatch, hres]
    | succ j' =>
      simp only [List.getElem?_cons_succ] at h
      cases hl : resolveLabel (some md) pred with
      | none => simp only [buildBatch, hl]
      | some label =>
        cases hp : prob[pred]? with
        | none => simp only [buildBatch, hl, hp]
        | some p =>
          cases hf : fl[k]? with
          | none => simp only [buildBatch, hl, hp, hf]
          | some f =>
            have hrec := ih (k + 1) j' pr h hle
            simp only [buildBatch, hl, hp, hf, hrec]

/-! ## Claim theorems -/

/-- C1, counterexample.  A `load_model` call that reads the artifact but
fails while parsing the metadata file returns `False` (load failure), yet
the artifact has already been published: health reports the model as
loaded and `predict` serves predictions from the new artifact — a partial
snapshot (artifact present, metadata load failed) is observable, refuting
the claimed all-or-nothing invariant. -/
theorem load_failure_partial_state_counterexample :
    (load_model corruptMetaFS initState).1 = false ∧
    (health_check (load_model corruptMetaFS initState).2).model_loaded = true ∧
    (load_model corruptMetaFS initState).2.metadata = none ∧
    predict (load_model corruptMetaFS initState).2 testFeatures =
      .ok { prediction := "class_0", probability := 1, features := testFeatures } := by
  refine ⟨rfl, rfl, rfl, ?_⟩
  rfl

/-- C1, amended.  On a failed `load_model` call either the artifact file
was absent or unreadable and the state is fully unchanged, or the artifact
was read but the metadata file was unreadable, in which case the new
artifact is nevertheless published (only the metadata keeps its previous
value) — so a failure can leave a partial snapshot observable. -/
theorem load_model_failure_cases (fs : FS) (s : ServiceState)
    (h : (load_model fs s).1 = false) :
    ((fs.modelFile = FileRead.absent ∨ fs.modelFile = FileRead.corrupt) ∧
      (load_model fs s).2 = s) ∨
    (∃ m, fs.modelFile = FileRead.ok m ∧ fs.metadataFile = FileRead.corrupt ∧
      (load_model fs s).2 = { s with model := some m }) := by
  cases hm : fs.modelFile with
  | absent => exact Or.inl ⟨Or.inl rfl, by simp [load_model, hm]⟩
  | corrupt => exact Or.inl ⟨Or.inr rfl, by simp [load_model, hm]⟩
  | ok m =>
    cases hmd : fs.metadataFile with
    | absent => simp [load_model, hm, hmd] at h
    | ok md => simp [load_model, hm, hmd] at h
    | corrupt => exact Or.inr ⟨m, rfl, rfl, by simp [load_model, hm, hmd]⟩

/-- C1, witness for the amended theorem, at the concrete failed load with
an absent artifact file. -/
theorem load_model_failure_cases_witness :
    ((absentFS.modelFile = FileRead.absent ∨ absentFS.modelFile = FileRead.corrupt) ∧
      (load_model absentFS initState).2 = initState) ∨
    (∃ m, absentFS.modelFile = FileRead.ok m ∧ absentFS.metadataFile = FileRead.corrupt ∧
      (load_model absentFS initState).2 = { initState with model := some m }) :=
  load_model_failure_cases absentFS initState rfl

/-- C2, counterexample.  With metadata whose `target_names = ["setosa"]`
and an artifact predicting class 1, both `predict` and `predict_batch`
fail with a 500 internal error (`IndexError` from
`metadata["target_names"][prediction]`) instead of returning the synthetic
label `"class_1"` — refuting the claimed fallback for a too-short
`target_names` list. -/
theorem short_target_names_counterexample :
    predict shortMetaState testFeatures =
      .error (.internal "Prediction failed: list index out of range") ∧
    predict_batch shortMetaState [testFeatures] =
      .error (.internal "Batch prediction failed: list index out of range") := by
  constructor
  · rfl
  · rfl

/-- C2, amended.  The synthetic label `class_<index>` is produced only when
the metadata dict is absent or lacks the `target_names` key.  When
`target_names` is present but shorter than the predicted index + 1, label
resolution raises and the request fails with a 500 internal error — for a
single prediction, and for a whole batch as soon as any row's index is out
of range. -/
theorem label_resolution_amended :
    (∀ (s : ServiceState) (m : Artifact) (f : IrisFeatures) (md : Metadata)
        (names : List String) (pred : Nat) (probs : List ℚ),
      s.model = some m → s.metadata = some md → md.target_names = some names →
      (m.predict [featureRow f])[0]? = some pred →
      (m.predictProba [featureRow f])[0]? = some probs →
      names.length ≤ pred →
      predict s f = .error (.internal "Prediction failed: list index out of range")) ∧
    (∀ (s : ServiceState) (m : Artifact) (fl : List IrisFeatures) (md : Metadata)
        (names : List String) (j : Nat) (pr : Nat × List ℚ),
      s.model = some m → s.metadata = some md → md.target_names = some names →
      ((m.predict (fl.map featureRow)).zip (m.predictProba (fl.map featureRow)))[j]?
        = some pr →
      names.length ≤ pr.1 →
      predict_batch s fl =
        .error (.internal "Batch prediction failed: list index out of range")) ∧
    (∀ (metadata : Option Metadata) (pred : Nat),
      (metadata = none ∨ ∃ md, metadata = some md ∧ md.target_names = none) →
      resolveLabel metadata pred = some ("class_" ++ toString pred)) := by
  refine ⟨?_, ?_, ?_⟩
  · intro s m f md names pred probs hm hmd hnames hp hq hle
    have hres : resolveLabel s.metadata pred = none := by
      have : names[pred]? = none := by
        rw [List.getElem?_eq_none_iff]
        exact hle
      simp [resolveLabel, hmd, hnames, this]
    simp only [predict, hm, hp, hq, hres]
  · intro s m fl md names j pr hm hmd hnames hj hle
    have := buildBatch_label_oob md names hnames fl
      ((m.predict (fl.map featureRow)).zip (m.predictProba (fl.map featureRow)))
      0 j pr hj hle
    simp only [predict_batch, hm, hmd]
    rw [← hmd] at this
    simp only [hmd] at this
    exact this
  · intro metadata pred h
    rcases h with rfl | ⟨md, rfl, hmd⟩
    · rfl
    · simp [resolveLabel, hmd]

/-- C2, witness for the amended theorem, at the concrete too-short
`target_names` state and the concrete no-metadata fallback. -/
theorem label_resolution_amended_witness :
    predict shortMetaState testFeatures2 =
      .error (.internal "Prediction failed: list index out of range") ∧
    resolveLabel none 7 = some ("class_" ++ toString 7) :=
  ⟨label_resolution_amended.1 shortMetaState class1Artifact testFeatures2
      shortMetadata ["setosa"] 1 [0, 1] rfl rfl rfl rfl rfl (by decide),
    label_resolution_amended.2.2 none 7 (Or.inl rfl)⟩

/-- C6.  In every reachable state with no loaded artifact, `predict` and
`predict_batch` fail with the 503 "Model not loaded" signal independently
of the input (no computation is attempted), `health_check` reports
unhealthy with `model_loaded = false` and no metadata summary, and
`get_model_info` fails with the 503 "Model metadata not available". -/
theorem unloaded_state_behavior (s : ServiceState) (f : IrisFeatures)
    (fl : List IrisFeatures) (hr : Reachable s) (hm : s.model = none) :
    predict s f = .error .modelNotLoaded ∧
    predict_batch s fl = .error .modelNotLoaded ∧
    health_check s =
      { status := "unhealthy", model_loaded := false, model_info := none } ∧
    get_model_info s = .error .metadataUnavailable := by
  have hmd : s.metadata = none := reachable_no_model_no_metadata hr hm
  refine ⟨?_, ?_, ?_, ?_⟩
  · simp only [predict, hm]
  · simp only [predict_batch, hm]
  · simp [health_check, hm, hmd]
  · simp only [get_model_info, hmd]

/-- C6, witness at the initial (never-loaded) state. -/
theorem unloaded_state_behavior_witness :
    predict initState testFeatures = .error .modelNotLoaded ∧
    predict_batch initState [testFeatures] = .error .modelNotLoaded ∧
    health_check initState =
      { status := "unhealthy", model_loaded := false, model_info := none } ∧
    get_model_info initState = .error .metadataUnavailable :=
  unloaded_state_behavior initState testFeatures [testFeatures] Reachable.init rfl

/-- C7.  For a fixed service state (fixed artifact and metadata), `predict`
is deterministic: two inputs with identical feature values yield identical
results.  The artifact's `predict`/`predict_proba` are embedded as
functions of their input, which is the claim's hypothesis. -/
theorem predict_deterministic (s : ServiceState) (f g : IrisFeatures)
    (h1 : f.sepal_length = g.sepal_length) (h2 : f.sepal_width = g.sepal_width)
    (h3 : f.petal_length = g.petal_length) (h4 : f.petal_width = g.petal_width) :
    predict s f = predict s g := by
  obtain ⟨a, b, c, d⟩ := f
  obtain ⟨a', b', c', d'⟩ := g
  cases h1
  cases h2
  cases h3
  cases h4
  rfl

/-- C7, witness at two structurally equal concrete inputs. -/
theorem predict_deterministic_witness :
    predict goodState testFeatures =
      predict goodState
        { sepal_length := 51/10, sepal_width := 35/10
        , petal_length := 14/10, petal_width := 2/10 } :=
  predict_deterministic goodState testFeatures
    { sepal_length := 51/10, sepal_width := 35/10
    , petal_length := 14/10, petal_width := 2/10 } rfl rfl rfl rfl

/-- C10.  Whenever the metadata dict is present, `get_model_info` succeeds
and returns exactly the dict's optional entries: an absent key yields a
`null` response field (for `model_type`, `feature_names`, `target_names`,
`n_estimators` and `max_depth`) rather than an error. -/
theorem model_info_total (s : ServiceState) (md : Metadata)
    (h : s.metadata = some md) :
    get_model_info s =
      .ok { model_type := md.model_type
          , feature_names := md.feature_names
          , target_names := md.target_names
          , model_parameters :=
              { n_estimators := md.n_estimators, max_depth := md.max_depth } } := by
  simp only [get_model_info, h]

/-- C10, witness at a metadata dict lacking every expected key: all five
response fields come back `null` and the call still succeeds. -/
theorem model_info_total_witness :
    get_model_info emptyMetaState =
      .ok { model_type := none
          , feature_names := none
          , target_names := none
          , model_parameters := { n_estimators := none, max_depth := none } } :=
  model_info_total emptyMetaState emptyMetadata rfl

/-- C5.  A single or batch request containing a missing or negative feature
field fails with a 422 validation error, and the outcome is identical in
every service state — in particular in states with arbitrary artifacts —
so the artifact is never invoked and no inference work begins; for a batch
the whole request fails with a single error, no partial results. -/
theorem invalid_input_rejected_before_inference
    (raw : RawFeatures) (raws : List RawFeatures) (r : RawFeatures) (i : Nat)
    (s t : ServiceState)
    (h1 : invalidRaw raw) (h2 : raws[i]? = some r) (h3 : invalidRaw r) :
    isValidationError (predictEndpoint s raw) = true ∧
    predictEndpoint s raw = predictEndpoint t raw ∧
    isValidationError (predictBatchEndpoint s raws) = true ∧
    predictBatchEndpoint s raws = predictBatchEndpoint t raws := by
  obtain ⟨d, hv⟩ := validateFeatures_invalid raw h1
  obtain ⟨d2, hb⟩ := validateBatch_invalid raws i r h2 h3
  refine ⟨?_, ?_, ?_, ?_⟩
  · simp only [predictEndpoint, hv, isValidationError]
  · simp only [predictEndpoint, hv]
  · simp only [predictBatchEndpoint, hb, isValidationError]
  · simp only [predictBatchEndpoint, hb]

/-- C5, witness: a negative `sepal_length` in a single request, and as the
second item of a two-item batch, each rejected identically in the loaded
state and the never-loaded state. -/
theorem invalid_input_rejected_before_inference_witness :
    isValidationError (predictEndpoint goodState negativeRaw) = true ∧
    predictEndpoint goodState negativeRaw = predictEndpoint initState negativeRaw ∧
    isValidationError (predictBatchEndpoint goodState [validRaw, negativeRaw]) = true ∧
    predictBatchEndpoint goodState [validRaw, negativeRaw]
      = predictBatchEndpoint initState [validRaw, negativeRaw] :=
  invalid_input_rejected_before_inference negativeRaw [validRaw, negativeRaw]
    negativeRaw 1 goodState initState
    (Or.inl (show ((-1 : ℚ) < 0) by norm_num)) rfl
    (Or.inl (show ((-1 : ℚ) < 0) by norm_num))

/-- C3.  On a successful batch prediction (with an artifact that emits one
class index and one probability row per input row), the output has exactly
one item per input, in input order: the `i`-th item has `sample_id = i`,
echoes `fl[i]`, and its label and probability are computed from row `i` of
the artifact's vectorized outputs. -/
theorem predict_batch_preserves_order
    (s : ServiceState) (m : Artifact) (fl : List IrisFeatures)
    (items : List BatchItem)
    (hm : s.model = some m)
    (hlp : (m.predict (fl.map featureRow)).length = fl.length)
    (hlq : (m.predictProba (fl.map featureRow)).length = fl.length)
    (hok : predict_batch s fl = .ok items) :
    items.length = fl.length ∧
    ∀ (i : Nat) (it : BatchItem), items[i]? = some it →
      it.sample_id = i ∧
      fl[i]? = some it.features ∧
      resolveLabel s.metadata ((m.predict (fl.map featureRow))[i]?.getD 0)
        = some it.prediction ∧
      ((m.predictProba (fl.map featureRow))[i]?.getD
          [])[(m.predict (fl.map featureRow))[i]?.getD 0]?
        = some it.probability := by
  simp only [predict_batch, hm] at hok
  obtain ⟨hlen, hget⟩ := buildBatch_ok_elim s.metadata fl _ 0 items hok
  constructor
  · rw [hlen, List.length_zip, hlp, hlq, Nat.min_self]
  · intro i it hj
    obtain ⟨pr, hzs, hsid, hres, hprob, hfeat⟩ := hget i it hj
    obtain ⟨hp, hq⟩ := List.getElem?_zip_eq_some.mp hzs
    refine ⟨by simpa using hsid, by simpa using hfeat, ?_, ?_⟩
    · rw [hp]
      exact hres
    · rw [hp, hq]
      exact hprob

/-- The concrete successful batch output for `goodState` on two inputs. -/
def goodItems : List BatchItem :=
  [ { sample_id := 0, prediction := "setosa", probability := 1
    , features := testFeatures }
  , { sample_id := 1, prediction := "setosa", probability := 1
    , features := testFeatures2 } ]

/-- The second item of `goodItems`. -/
def goodItem1 : BatchItem :=
  { sample_id := 1, prediction := "setosa", probability := 1
  , features := testFeatures2 }

/-- C3, witness at a concrete two-item batch against the loaded state,
instantiated at index 1. -/
theorem predict_batch_preserves_order_witness :
    goodItems.length = [testFeatures, testFeatures2].length ∧
    (goodItem1.sample_id = 1 ∧
      [testFeatures, testFeatures2][1]? = some goodItem1.features ∧
      resolveLabel goodState.metadata
        ((goodArtifact.predict
          ([testFeatures, testFeatures2].map featureRow))[1]?.getD 0)
        = some goodItem1.prediction ∧
      ((goodArtifact.predictProba
          ([testFeatures, testFeatures2].map featureRow))[1]?.getD
        [])[(goodArtifact.predict
          ([testFeatures, testFeatures2].map featureRow))[1]?.getD 0]?
        = some goodItem1.probability) :=
  ⟨(predict_batch_preserves_order goodState goodArtifact
      [testFeatures, testFeatures2] goodItems rfl rfl rfl rfl).1,
   (predict_batch_preserves_order goodState goodArtifact
      [testFeatures, testFeatures2] goodItems rfl rfl rfl rfl).2 1 goodItem1 rfl⟩

/-- C4.  The vectorized batch prediction refines per-item prediction: if
the artifact's batch outputs agree row-wise with its single-row outputs
(the claim's hypothesis), then every item of a successful `predict_batch`
carries exactly the label, probability and echoed features that `predict`
returns for the corresponding single input. -/
theorem predict_batch_refines_predict
    (s : ServiceState) (m : Artifact) (fl : List IrisFeatures)
    (items : List BatchItem) (i : Nat) (f : IrisFeatures) (it : BatchItem)
    (hm : s.model = some m)
    (hrow : ∀ (j : Nat) (row : List ℚ), (fl.map featureRow)[j]? = some row →
      (m.predict (fl.map featureRow))[j]? = (m.predict [row])[0]? ∧
      (m.predictProba (fl.map featureRow))[j]? = (m.predictProba [row])[0]?)
    (hok : predict_batch s fl = .ok items)
    (hf : fl[i]? = some f)
    (hit : items[i]? = some it) :
    predict s f = .ok { prediction := it.prediction
                      , probability := it.probability
                      , features := it.features } := by
  simp only [predict_batch, hm] at hok
  obtain ⟨hlen, hget⟩ := buildBatch_ok_elim s.metadata fl _ 0 items hok
  obtain ⟨pr, hzs, hsid, hres, hprob, hfeat⟩ := hget i it hit
  obtain ⟨hp, hq⟩ := List.getElem?_zip_eq_some.mp hzs
  have hrowi : (fl.map featureRow)[i]? = some (featureRow f) := by
    rw [List.getElem?_map, hf]
    rfl
  obtain ⟨hp1, hq1⟩ := hrow i (featureRow f) hrowi
  rw [hp] at hp1
  rw [hq] at hq1
  have hfeat2 : it.features = f := by
    rw [Nat.zero_add, hf] at hfeat
    injection hfeat with hfeat
    exact hfeat.symm
  simp only [predict, hm, ← hp1, ← hq1, hres, hprob, hfeat2]

/-- C4, witness at the concrete two-item batch, index 0: the batch item
equals the single-call result. -/
theorem predict_batch_refines_predict_witness :
    predict goodState testFeatures =
      .ok { prediction := (goodItems.get ⟨0, by simp [goodItems]⟩).prediction
          , probability := (goodItems.get ⟨0, by simp [goodItems]⟩).probability
          , features := (goodItems.get ⟨0, by simp [goodItems]⟩).features } :=
  predict_batch_refines_predict goodState goodArtifact
    [testFeatures, testFeatures2] goodItems 0 testFeatures
    (goodItems.get ⟨0, by simp [goodItems]⟩) rfl
    (by
      intro j row h
      have hj : j < 2 := by
        by_contra hc
        push_neg at hc
        rw [List.getElem?_eq_none (by simpa using hc)] at h
        exact Option.noConfusion h
      rcases j with _ | _ | j
      · exact ⟨rfl, rfl⟩
      · exact ⟨rfl, rfl⟩
      · omega)
    rfl rfl rfl

/-- C8.  Every returned probability — of a successful single prediction and
of every item of a successful batch — is exactly the entry of the
artifact's probability row at the predicted class index for that input
row, and it lies in [0, 1] whenever every entry of the artifact's
probability matrix does (the claim's hypothesis). -/
theorem probability_from_distribution :
    (∀ (s : ServiceState) (m : Artifact) (f : IrisFeatures)
        (r : PredictionResponse),
      s.model = some m →
      (∀ (X : List (List ℚ)) (row : List ℚ) (p : ℚ),
        row ∈ m.predictProba X → p ∈ row → 0 ≤ p ∧ p ≤ 1) →
      predict s f = .ok r →
      ((m.predictProba [featureRow f])[0]?.getD
          [])[(m.predict [featureRow f])[0]?.getD 0]? = some r.probability ∧
        0 ≤ r.probability ∧ r.probability ≤ 1) ∧
    (∀ (s : ServiceState) (m : Artifact) (fl : List IrisFeatures)
        (items : List BatchItem) (i : Nat) (it : BatchItem),
      s.model = some m →
      (∀ (X : List (List ℚ)) (row : List ℚ) (p : ℚ),
        row ∈ m.predictProba X → p ∈ row → 0 ≤ p ∧ p ≤ 1) →
      predict_batch s fl = .ok items → items[i]? = some it →
      ((m.predictProba (fl.map featureRow))[i]?.getD
          [])[(m.predict (fl.map featureRow))[i]?.getD 0]? = some it.probability ∧
        0 ≤ it.probability ∧ it.probability ≤ 1) := by
  constructor
  · intro s m f r hm hbound hok1
    obtain ⟨pred, probs, hp, hq, hres, hprob, hfeat⟩ := predict_ok_elim s m f r hm hok1
    refine ⟨by rw [hp, hq]; exact hprob, ?_⟩
    exact hbound [featureRow f] probs r.probability
      (List.getElem?_mem hq) (List.getElem?_mem hprob)
  · intro s m fl items i it hm hbound hok2 hit
    simp only [predict_batch, hm] at hok2
    obtain ⟨hlen, hget⟩ := buildBatch_ok_elim s.metadata fl _ 0 items hok2
    obtain ⟨pr, hzs, hsid, hres2, hprob2, hfeat2⟩ := hget i it hit
    obtain ⟨hp2, hq2⟩ := List.getElem?_zip_eq_some.mp hzs
    refine ⟨by rw [hp2, hq2]; exact hprob2, ?_⟩
    exact hbound (fl.map featureRow) pr.2 it.probability
      (List.getElem?_mem hq2) (List.getElem?_mem hprob2)

/-- The concrete successful single-prediction response for `goodState` on
`testFeatures`. -/
def predictionOkGood : PredictionResponse :=
  { prediction := "setosa", probability := 1, features := testFeatures }

/-- C8, witness at the loaded state whose probability rows are `[1]`. -/
theorem probability_from_distribution_witness :
    (((goodArtifact.predictProba [featureRow testFeatures])[0]?.getD
        [])[(goodArtifact.predict [featureRow testFeatures])[0]?.getD 0]?
        = some (predictionOkGood.probability) ∧
      0 ≤ predictionOkGood.probability ∧ predictionOkGood.probability ≤ 1) ∧
    (((goodArtifact.predictProba
        ([testFeatures, testFeatures2].map featureRow))[1]?.getD
        [])[(goodArtifact.predict
        ([testFeatures, testFeatures2].map featureRow))[1]?.getD 0]?
        = some goodItem1.probability ∧
      0 ≤ goodItem1.probability ∧ goodItem1.probability ≤ 1) :=
  ⟨probability_from_distribution.1 goodState goodArtifact testFeatures
      predictionOkGood rfl
      (by
        intro X row p hrow hp
        simp only [goodArtifact, List.mem_map] at hrow
        obtain ⟨x, _, hxr⟩ := hrow
        rw [← hxr] at hp
        simp only [List.mem_singleton] at hp
        subst hp
        exact ⟨by norm_num, by norm_num⟩)
      rfl,
   probability_from_distribution.2 goodState goodArtifact
      [testFeatures, testFeatures2] goodItems 1 goodItem1 rfl
      (by
        intro X row p hrow hp
        simp only [goodArtifact, List.mem_map] at hrow
        obtain ⟨x, _, hxr⟩ := hrow
        rw [← hxr] at hp
        simp only [List.mem_singleton] at hp
        subst hp
        exact ⟨by norm_num, by norm_num⟩)
      rfl rfl⟩

/-- C9.  A successful single prediction echoes the validated input features
unchanged, and for every item of a successful batch the echoed features
are exactly the input list's entry at that item's position. -/
theorem features_echoed :
    (∀ (s : ServiceState) (f : IrisFeatures) (r : PredictionResponse),
      predict s f = .ok r → r.features = f) ∧
    (∀ (s : ServiceState) (fl : List IrisFeatures) (items : List BatchItem)
        (i : Nat) (it : BatchItem),
      predict_batch s fl = .ok items → items[i]? = some it →
      fl[i]? = some it.features) := by
  constructor
  · intro s f r hok1
    cases hm : s.model with
    | none =>
      rw [predict, hm] at hok1
      exact Except.noConfusion hok1
    | some m =>
      obtain ⟨pred, probs, hp, hq, hres, hprob, hfeat⟩ :=
        predict_ok_elim s m f r hm hok1
      exact hfeat
  · intro s fl items i it hok2 hit
    cases hm : s.model with
    | none =>
      rw [predict_batch, hm] at hok2
      exact Except.noConfusion hok2
    | some m =>
      simp only [predict_batch, hm] at hok2
      obtain ⟨hlen, hget⟩ := buildBatch_ok_elim s.metadata fl _ 0 items hok2
      obtain ⟨pr, hzs, hsid, hres2, hprob2, hfeat2⟩ := hget i it hit
      simpa using hfeat2

/-- C9, witness at the concrete loaded state, single call and batch index 1. -/
theorem features_echoed_witness :
    predictionOkGood.features = testFeatures ∧
    [testFeatures, testFeatures2][1]? = some goodItem1.features :=
  ⟨features_echoed.1 goodState testFeatures predictionOkGood rfl,
   features_echoed.2 goodState [testFeatures, testFeatures2] goodItems
      1 goodItem1 rfl rfl⟩
